import Mathlib

/-!
Verification development for the Secure Vault frontend.

Shallow embedding of the TypeScript source:
  * `src/components/mfa-verification.tsx` (`handleVerify`)
  * `src/components/mfa-setup.tsx` (`handleVerifyMFA`)
  * `src/lib/api-mock.ts` (`MockApiClient.get/post/delete`)
  * `src/lib/api.ts` (`ApiClient.getAuthHeaders/get/post/delete`)
  * `src/contexts/auth-context.tsx` (`signIn`, `verifyTwoFactor`)
  * `src/contexts/session-context.tsx` (`SessionProvider`)
and, for backend contracts that exist only as a specification
(encryption engine, access-control evaluator), models written from the
specification's words, marked `Modelled from the spec:`.

Strings that are dispatched on by prefix are embedded as `List Char`
(JavaScript `String.prototype.startsWith` becomes `List.isPrefixOf`);
other strings stay `String`.  JSON payloads whose shape is heterogeneous
are embedded with a small `JVal` type.
-/

namespace SecureVault

/-- Minimal JSON value type for heterogeneous mock payloads
(`config` of access-control rules, `details` of audit entries,
request bodies). -/
inductive JVal where
  | jnull : JVal
  | jbool : Bool → JVal
  | jnum : Nat → JVal
  | jstr : String → JVal
  | jarr : List JVal → JVal
  | jobj : List (String × JVal) → JVal
deriving Repr

/-- JavaScript `String.prototype.trim`: strip whitespace from both ends.
Embedded structurally (via `List.dropWhile`) so that it reduces. -/
def jsTrim (s : String) : String :=
  ⟨((s.data.dropWhile Char.isWhitespace).reverse.dropWhile Char.isWhitespace).reverse⟩

/-! ### MFA verification dialog — `src/components/mfa-verification.tsx`

`handleVerify` (lines 42–70): if both fields are blank after trimming it
sets an error message and returns; otherwise it awaits a 1-second timer
(the simulated verification, which never rejects), then calls
`onVerified()`, closes the dialog (`onOpenChange(false)`) and clears both
fields. -/

/-- Observable outcome of one `handleVerify` invocation: whether
`onVerified` was called, whether the dialog is open afterwards, the two
field values afterwards, and the error message (if any). -/
structure HandleVerifyOutcome where
  onVerifiedCalled : Bool
  dialogOpen : Bool
  tokenAfter : String
  backupAfter : String
  errorMsg : Option String
deriving DecidableEq, Repr

/-- Function `handleVerify` of `MFAVerification`: the guard
`!verificationToken.trim() && !backupCode.trim()` rejects only when both
trimmed fields are empty; every other invocation takes the simulated
success path. -/
def handleVerify (verificationToken backupCode : String) : HandleVerifyOutcome :=
  if jsTrim verificationToken = "" ∧ jsTrim backupCode = "" then
    { onVerifiedCalled := false
      dialogOpen := true
      tokenAfter := verificationToken
      backupAfter := backupCode
      errorMsg := some "Please enter a verification token or backup code" }
  else
    { onVerifiedCalled := true
      dialogOpen := false
      tokenAfter := ""
      backupAfter := ""
      errorMsg := none }

end SecureVault

namespace SecureVault

/-- C1: with at least one field non-blank, the simulated verification
always succeeds: `onVerified` runs, the dialog closes, both fields are
cleared and no error is set — no credential value causes failure. -/
theorem handleVerify_always_succeeds (tok bak : String)
    (h : ¬ (jsTrim tok = "" ∧ jsTrim bak = "")) :
    handleVerify tok bak =
      { onVerifiedCalled := true, dialogOpen := false,
        tokenAfter := "", backupAfter := "", errorMsg := none } := by
  unfold handleVerify
  rw [if_neg h]

/-- Witness for C1 at the concrete credential `"123456"` / `""`. -/
theorem handleVerify_always_succeeds_witness :
    handleVerify "123456" "" =
      { onVerifiedCalled := true, dialogOpen := false,
        tokenAfter := "", backupAfter := "", errorMsg := none } :=
  handleVerify_always_succeeds "123456" "" (by decide)

/-! ### Mock API client — `src/lib/api-mock.ts`

Endpoints are dispatched on with `===`, `startsWith` and `includes`;
they are embedded as `List Char`, with `startsWith` becoming
`List.isPrefixOf` and `includes` becoming `containsSub` below. -/

/-- JavaScript `String.prototype.includes`: `sub` occurs contiguously in
`s`. -/
def containsSub (sub s : List Char) : Bool :=
  match s with
  | [] => sub.isPrefixOf ([] : List Char)
  | c :: rest => sub.isPrefixOf (c :: rest) || containsSub sub rest

/-- One entry of the mock `/audit/logs` payload
(`MockApiClient.get`, `src/lib/api-mock.ts` lines 89–123). -/
structure AuditEntry where
  id : String
  action : String
  resource : String
  timestamp : String
  ipAddress : String
  userAgent : String
  success : Bool
  details : Option JVal
deriving Repr

/-- Mock `/stats` payload. -/
structure StatsData where
  totalFiles : Nat
  totalSize : Nat
  lastUpload : String
  activeShares : Nat
  securityScore : Nat
deriving Repr, DecidableEq

/-- One entry of the mock `/files` payload. -/
structure MockFileEntry where
  id : String
  name : String
  size : Nat
  type : String
  uploadedAt : String
  encrypted : Bool
  shared : Bool
  downloadCount : Nat
  lastAccessed : String
deriving Repr, DecidableEq

/-- One entry of the mock `/access-control/rules` payload; `config` is
an open-ended object in the source, kept as `JVal`. -/
structure RuleEntry where
  id : String
  type : String
  name : String
  enabled : Bool
  config : JVal
deriving Repr

/-- Mock `/user/settings` payload. -/
structure SettingsData where
  twoFactorEnabled : Bool
  sessionTimeout : Nat
  emailNotifications : Bool
  securityAlerts : Bool
  dataRetention : Nat
deriving Repr, DecidableEq

/-- One entry of the mock `/user/devices` payload. -/
structure DeviceEntry where
  id : String
  name : String
  userAgent : String
  location : String
  lastSeen : String
deriving Repr, DecidableEq

/-- The shapes `MockApiClient.get` can return, one constructor per
dispatch branch; `emptyData` is the final `return { data: [] }`. -/
inductive MockGetResponse where
  | stats : StatsData → MockGetResponse
  | files : List MockFileEntry → MockGetResponse
  | rules : List RuleEntry → MockGetResponse
  | audit : List AuditEntry → MockGetResponse
  | settings : SettingsData → MockGetResponse
  | devices : List DeviceEntry → MockGetResponse
  | emptyData : MockGetResponse
deriving Repr

/-- Path `"/stats"` as characters. -/
def statsPath : List Char := ['/', 's', 't', 'a', 't', 's']

/-- Path `"/files"` as characters. -/
def filesPath : List Char := ['/', 'f', 'i', 'l', 'e', 's']

/-- Path `"/access-control/rules"` as characters. -/
def rulesPath : List Char :=
  ['/', 'a', 'c', 'c', 'e', 's', 's', '-', 'c', 'o', 'n', 't', 'r', 'o', 'l',
   '/', 'r', 'u', 'l', 'e', 's']

/-- Path `"/audit/logs"` as characters. -/
def auditPath : List Char :=
  ['/', 'a', 'u', 'd', 'i', 't', '/', 'l', 'o', 'g', 's']

/-- Path `"/user/settings"` as characters. -/
def settingsPath : List Char :=
  ['/', 'u', 's', 'e', 'r', '/', 's', 'e', 't', 't', 'i', 'n', 'g', 's']

/-- Path `"/user/devices"` as characters. -/
def devicesPath : List Char :=
  ['/', 'u', 's', 'e', 'r', '/', 'd', 'e', 'v', 'i', 'c', 'e', 's']

/-- Path `"/auth/check-2fa"` as characters. -/
def check2faPath : List Char :=
  ['/', 'a', 'u', 't', 'h', '/', 'c', 'h', 'e', 'c', 'k', '-', '2', 'f', 'a']

/-- Path `"/share"` as characters. -/
def sharePath : List Char := ['/', 's', 'h', 'a', 'r', 'e']

/-- Path `"/mfa/verify"` as characters. -/
def mfaVerifyPath : List Char :=
  ['/', 'm', 'f', 'a', '/', 'v', 'e', 'r', 'i', 'f', 'y']

/-- The fixed list the mock returns for `/audit/logs`, transcribed from
`src/lib/api-mock.ts` lines 89–123. -/
def mockAuditLogs : List AuditEntry :=
  [ { id := "1", action := "file_upload", resource := "/files/1",
      timestamp := "2024-01-15T10:30:00Z", ipAddress := "192.168.1.100",
      userAgent := "Mozilla/5.0 (Windows NT 10.0; Win64; x64) AppleWebKit/537.36",
      success := true,
      details := some (.jobj [("filename", .jstr "document.pdf"), ("size", .jnum 1024000)]) },
    { id := "2", action := "file_download", resource := "/files/2",
      timestamp := "2024-01-15T09:15:00Z", ipAddress := "192.168.1.100",
      userAgent := "Mozilla/5.0 (Windows NT 10.0; Win64; x64) AppleWebKit/537.36",
      success := true,
      details := some (.jobj [("filename", .jstr "image.jpg")]) },
    { id := "3", action := "login", resource := "/auth/login",
      timestamp := "2024-01-15T08:45:00Z", ipAddress := "192.168.1.100",
      userAgent := "Mozilla/5.0 (Windows NT 10.0; Win64; x64) AppleWebKit/537.36",
      success := true, details := none } ]

/-- The fixed list the mock returns for `/files`. -/
def mockFiles : List MockFileEntry :=
  [ { id := "1", name := "document.pdf", size := 1024000,
      type := "application/pdf", uploadedAt := "2024-01-15T10:30:00Z",
      encrypted := true, shared := false, downloadCount := 5,
      lastAccessed := "2024-01-14T15:20:00Z" },
    { id := "2", name := "image.jpg", size := 2048000,
      type := "image/jpeg", uploadedAt := "2024-01-14T09:15:00Z",
      encrypted := true, shared := true, downloadCount := 2,
      lastAccessed := "2024-01-13T11:45:00Z" },
    { id := "3", name := "presentation.pptx", size := 5120000,
      type := "application/vnd.openxmlformats-officedocument.presentationml.presentation",
      uploadedAt := "2024-01-13T14:22:00Z",
      encrypted := true, shared := false, downloadCount := 1,
      lastAccessed := "2024-01-13T16:30:00Z" } ]

/-- The fixed list the mock returns for `/access-control/rules`. -/
def mockRules : List RuleEntry :=
  [ { id := "1", type := "time", name := "Business Hours Only", enabled := true,
      config := .jobj [("startTime", .jstr "09:00"), ("endTime", .jstr "17:00")] },
    { id := "2", type := "location", name := "US Access Only", enabled := false,
      config := .jobj [("countries", .jarr [.jstr "US", .jstr "CA"])] } ]

/-- Method `MockApiClient.get` (`src/lib/api-mock.ts` lines 7–159): dispatch on
the endpoint in source order (`===` for `/stats`, `startsWith` for the
rest), returning the corresponding fixed payload. -/
def mockGet (endpoint : List Char) : MockGetResponse :=
  if endpoint = statsPath then
    .stats { totalFiles := 12, totalSize := 45678901, lastUpload := "2024-01-15",
             activeShares := 3, securityScore := 85 }
  else if filesPath.isPrefixOf endpoint then .files mockFiles
  else if rulesPath.isPrefixOf endpoint then .rules mockRules
  else if auditPath.isPrefixOf endpoint then .audit mockAuditLogs
  else if settingsPath.isPrefixOf endpoint then
    .settings { twoFactorEnabled := false, sessionTimeout := 30,
                emailNotifications := true, securityAlerts := true,
                dataRetention := 365 }
  else if devicesPath.isPrefixOf endpoint then
    .devices
      [ { id := "1", name := "Windows PC",
          userAgent := "Mozilla/5.0 (Windows NT 10.0; Win64; x64) AppleWebKit/537.36",
          location := "New York, US", lastSeen := "2024-01-15T10:30:00Z" },
        { id := "2", name := "iPhone",
          userAgent := "Mozilla/5.0 (iPhone; CPU iPhone OS 17_0 like Mac OS X)",
          location := "New York, US", lastSeen := "2024-01-14T18:20:00Z" } ]
  else .emptyData

/-- The shapes `MockApiClient.post` can return; `expiresAtMs` embeds
`new Date(Date.now() + 7*24*60*60*1000).toISOString()` as the epoch
instant in milliseconds rather than its ISO rendering. -/
inductive MockPostResponse where
  | check2fa : (requiresTwoFactor : Bool) → MockPostResponse
  | share : (success : Bool) → (shareUrl shareToken : String) →
      (expiresAtMs : Nat) → MockPostResponse
  | generic : (success : Bool) → (message : String) → MockPostResponse
deriving Repr, DecidableEq

/-- Method `MockApiClient.post` (`src/lib/api-mock.ts` lines 161–178): two
`includes` checks, then the unconditional
`{ success: true, message: "Mock operation completed" }`.  `now` is the
value of `Date.now()` at the call; the request body `_data` is accepted
and ignored, as in the source. -/
def mockPost (now : Nat) (endpoint : List Char) (_data : Option JVal) :
    MockPostResponse :=
  if containsSub check2faPath endpoint then .check2fa false
  else if containsSub sharePath endpoint then
    .share true "https://secure-vault.com/shared/abc123" "abc123"
      (now + 7 * 24 * 60 * 60 * 1000)
  else .generic true "Mock operation completed"

/-- Method `MockApiClient.delete` (`src/lib/api-mock.ts` lines 180–183):
unconditional success, for every endpoint. -/
def mockDelete (_endpoint : List Char) : MockPostResponse :=
  .generic true "Mock delete completed"

/-! ### MFA setup verification request — `src/components/mfa-setup.tsx`

`handleVerifyMFA` (lines 96–130): same both-blank guard as the dialog;
otherwise it POSTs `/mfa/verify` with
`token: verificationToken.trim() || undefined` and
`backupCode: backupCode.trim() || undefined`. -/

/-- Body of the `/mfa/verify` request. -/
structure VerifyBody where
  token : Option String
  backupCode : Option String
deriving Repr, DecidableEq

/-- Function `handleVerifyMFA` up to the point the request is issued: either the
client-side error (both fields blank) or the request body actually sent. -/
def handleVerifyMFA (verificationToken backupCode : String) :
    Except String VerifyBody :=
  if jsTrim verificationToken = "" ∧ jsTrim backupCode = "" then
    .error "Please enter a verification token or backup code"
  else
    .ok { token := if jsTrim verificationToken = "" then none
                   else some (jsTrim verificationToken),
          backupCode := if jsTrim backupCode = "" then none
                        else some (jsTrim backupCode) }

/-- C4 counterexample: supplying BOTH a token and a backup code (not
exactly one) does not fail — `handleVerifyMFA` issues the request with
both fields set, and the mock `/mfa/verify` endpoint answers success,
not a `MissingCredential` failure. -/
theorem verify_both_supplied_succeeds :
    handleVerifyMFA "123456" "ABCDE" =
      .ok { token := some "123456", backupCode := some "ABCDE" } ∧
    mockPost 0 mfaVerifyPath
        (some (.jobj [("token", .jstr "123456"), ("backupCode", .jstr "ABCDE")])) =
      .generic true "Mock operation completed" := by
  constructor
  · rfl
  · rfl

/-- C4 amended: a verify invocation is rejected client-side exactly when
both fields are blank after trimming; whenever at least one is supplied
— including both at once — the request is sent with each non-blank
trimmed field, and the mock `/mfa/verify` endpoint succeeds
unconditionally (it never checks the body and has no
`MissingCredential` outcome). -/
theorem handleVerifyMFA_rejects_iff_both_blank (tok bak : String) (now : Nat)
    (body : Option JVal) :
    ((∃ msg, handleVerifyMFA tok bak = .error msg) ↔
      (jsTrim tok = "" ∧ jsTrim bak = "")) ∧
    mockPost now mfaVerifyPath body = .generic true "Mock operation completed" := by
  refine ⟨?_, by unfold mockPost; rfl⟩
  unfold handleVerifyMFA
  by_cases h : jsTrim tok = "" ∧ jsTrim bak = ""
  · simp [h]
  · simp [h]

/-! ### Audit log query — `src/components/audit-log.tsx`

`fetchLogs` requests
`/audit/logs?filter=${filter}&range=${dateRange}&search=${searchQuery}`
and displays `response.data || []`. -/

/-- Any list is an `isPrefixOf` of itself followed by anything. -/
theorem isPrefixOf_append_self (l q : List Char) : l.isPrefixOf (l ++ q) = true := by
  induction l with
  | nil => simp [List.isPrefixOf]
  | cons c cs ih => simp [List.isPrefixOf, ih]

/-- The query string `?filter=…&range=…&search=…` of `fetchLogs`. -/
def auditQueryChars (filter range search : List Char) : List Char :=
  ['?', 'f', 'i', 'l', 't', 'e', 'r', '='] ++ filter ++
  ['&', 'r', 'a', 'n', 'g', 'e', '='] ++ range ++
  ['&', 's', 'e', 'a', 'r', 'c', 'h', '='] ++ search

/-- The full endpoint `fetchLogs` requests. -/
def auditLogsEndpoint (filter range search : List Char) : List Char :=
  auditPath ++ auditQueryChars filter range search

/-- Function `AuditLog.fetchLogs` against the mock client: the entries it ends up
displaying (`response.data || []`). -/
def fetchLogs (filter range search : List Char) : List AuditEntry :=
  match mockGet (auditLogsEndpoint filter range search) with
  | .audit l => l
  | _ => []

/-- For every query suffix, the mock dispatch lands in the
`/audit/logs` branch. -/
theorem mockGet_audit_branch (q : List Char) :
    mockGet (auditPath ++ q) = .audit mockAuditLogs := by
  unfold mockGet
  rw [if_neg, if_neg, if_neg, if_pos]
  · exact isPrefixOf_append_self auditPath q
  · simp [rulesPath, auditPath, List.isPrefixOf]
  · simp [filesPath, auditPath, List.isPrefixOf]
  · intro h
    have h2 := congrArg List.length h
    simp [auditPath, statsPath] at h2

/-- C7: for every filter, date range and search string, the audit
entries returned by the audit-log query are the mock's fixed list, whose
timestamps are strictly decreasing — reverse-chronological, newest
first (ISO-8601 UTC timestamps of equal length, so lexicographic order
on their characters is chronological order). -/
theorem fetchLogs_reverse_chronological (filter range search : List Char) :
    fetchLogs filter range search = mockAuditLogs ∧
    mockAuditLogs.Pairwise (fun a b => b.timestamp.data < a.timestamp.data) := by
  constructor
  · unfold fetchLogs auditLogsEndpoint
    rw [mockGet_audit_branch]
  · decide

/-! ### API client — `src/lib/api.ts`

`ApiClient.getAuthHeaders` builds the headers from the Supabase session;
`get`/`post`/`delete` try the live fetch and, on a thrown fetch or a
non-ok status, fall back to the mock client's response. -/

/-- The part of a Supabase session the client reads. -/
structure SupaSession where
  access_token : String
deriving Repr, DecidableEq

/-- An error thrown by `supabase.auth.getSession()`. -/
inductive SupabaseErr where
  | err : String → SupabaseErr
deriving Repr, DecidableEq

/-- The two headers `getAuthHeaders` produces. -/
structure AuthHeaders where
  contentType : String
  authorization : String
deriving Repr, DecidableEq

/-- Method `ApiClient.getAuthHeaders` (`src/lib/api.ts` lines 8–29): its input
is the outcome of `supabase.auth.getSession()` (a thrown error, no
session, or a session).  `session?.access_token ? Bearer… : ""` is JS
truthiness, so an empty token also yields an empty Authorization
value. -/
def getAuthHeaders (sessionResult : Except SupabaseErr (Option SupaSession)) :
    AuthHeaders :=
  match sessionResult with
  | .error _ => { contentType := "application/json", authorization := "" }
  | .ok none => { contentType := "application/json", authorization := "" }
  | .ok (some s) =>
      { contentType := "application/json"
        authorization := if s.access_token = "" then ""
                         else "Bearer " ++ s.access_token }

/-- The header carries a bearer credential: a non-empty token after the
`Bearer ` scheme prefix. -/
def hasBearerCredential (h : AuthHeaders) : Prop :=
  ∃ t, t ≠ "" ∧ h.authorization = "Bearer " ++ t

/-- C6 counterexample: a request issued with no Supabase session (user
not logged in) goes out with an empty `Authorization` value — no bearer
credential identifying the caller. -/
theorem getAuthHeaders_no_session_no_bearer :
    (getAuthHeaders (.ok none)).authorization = "" ∧
    ¬ hasBearerCredential (getAuthHeaders (.ok none)) := by
  refine ⟨rfl, ?_⟩
  rintro ⟨t, _ht, h⟩
  have h0 : (getAuthHeaders (.ok none)).authorization = "" := rfl
  rw [h0] at h
  have h2 := congrArg String.length h
  rw [String.length_append] at h2
  have h3 : "Bearer ".length = 7 := rfl
  have h4 : "".length = 0 := rfl
  rw [h3, h4] at h2
  omega

/-- C6 amended: a request carries `Bearer <token>` exactly when a
session with a non-empty access token exists; with no session, an
errored session lookup, or an empty token, `Authorization` is the empty
string instead. -/
theorem empty_ne_bearer (t : String) : "" ≠ "Bearer " ++ t := by
  intro h
  have h2 := congrArg String.length h
  rw [String.length_append] at h2
  have h3 : "Bearer ".length = 7 := rfl
  have h4 : "".length = 0 := rfl
  rw [h3, h4] at h2
  omega

/-- C6 amended: for every outcome of the session lookup, the headers
hold a bearer credential exactly when the lookup returned a session with
a non-empty access token; in that case `Authorization` is
`Bearer <token>`, and with no session, an errored lookup, or an empty
token it is the empty string instead. -/
theorem getAuthHeaders_bearer_iff_session
    (sres : Except SupabaseErr (Option SupaSession)) :
    (hasBearerCredential (getAuthHeaders sres) ↔
      ∃ s, sres = .ok (some s) ∧ s.access_token ≠ "") ∧
    (∀ s, sres = .ok (some s) →
      (getAuthHeaders sres).authorization =
        if s.access_token = "" then "" else "Bearer " ++ s.access_token) ∧
    ((sres = .ok none ∨ ∃ e, sres = .error e) →
      (getAuthHeaders sres).authorization = "") := by
  refine ⟨⟨?_, ?_⟩, ?_, ?_⟩
  · rintro ⟨t, _ht, hauth⟩
    rcases sres with e | os
    · exact absurd hauth (empty_ne_bearer t)
    · rcases os with _ | s
      · exact absurd hauth (empty_ne_bearer t)
      · by_cases htok : s.access_token = ""
        · have h0 : (getAuthHeaders (.ok (some s))).authorization = "" := by
            simp [getAuthHeaders, htok]
          rw [h0] at hauth
          exact absurd hauth (empty_ne_bearer t)
        · exact ⟨s, rfl, htok⟩
  · rintro ⟨s, rfl, hs⟩
    exact ⟨s.access_token, hs, by simp [getAuthHeaders, hasBearerCredential, hs]⟩
  · rintro s rfl
    rfl
  · rintro (rfl | ⟨e, rfl⟩) <;> rfl

/-- Witness for C6's amended theorem, exercising all four notable
inputs: a non-empty-token session (bearer present), an empty-token
session, no session, and an errored lookup (all without bearer). -/
theorem getAuthHeaders_bearer_iff_session_witness :
    hasBearerCredential (getAuthHeaders (.ok (some ⟨"tok123"⟩))) ∧
    (getAuthHeaders (.ok (some ⟨""⟩))).authorization = "" ∧
    (getAuthHeaders (.ok none)).authorization = "" ∧
    (getAuthHeaders (.error (.err "network"))).authorization = "" := by
  refine ⟨?_, ?_, ?_, ?_⟩
  · exact (getAuthHeaders_bearer_iff_session (.ok (some ⟨"tok123"⟩))).1.mpr
      ⟨⟨"tok123"⟩, rfl, by decide⟩
  · have h := (getAuthHeaders_bearer_iff_session (.ok (some ⟨""⟩))).2.1 ⟨""⟩ rfl
    simpa using h
  · exact (getAuthHeaders_bearer_iff_session (.ok none)).2.2 (.inl rfl)
  · exact (getAuthHeaders_bearer_iff_session (.error (.err "network"))).2.2
      (.inr ⟨_, rfl⟩)

/-- Outcome of the `fetch` call made by `get`/`post`/`delete`: the fetch
either throws, or yields a response with an `ok` flag and a JSON body. -/
inductive FetchOutcome where
  | thrown : FetchOutcome
  | response : (ok : Bool) → (body : JVal) → FetchOutcome
deriving Repr

/-- The error channel of the API client (the claim is that for
`get`/`post`/`delete` it is never used on transport or HTTP failure). -/
inductive ApiError where
  | httpFailure : ApiError
deriving Repr, DecidableEq

/-- What an API-client method hands back to its caller: the live JSON
body, or the mock client's response after a fallback. -/
inductive Payload (α : Type) where
  | live : JVal → Payload α
  | fromMock : α → Payload α

/-- Method `ApiClient.get` (`src/lib/api.ts` lines 31–55): mock mode short
circuits; otherwise a thrown fetch or a non-ok status is caught and the
mock response is returned in its place. -/
def apiGet (useMock : Bool) (outcome : FetchOutcome) (endpoint : List Char) :
    Except ApiError (Payload MockGetResponse) :=
  if useMock then .ok (.fromMock (mockGet endpoint))
  else
    match outcome with
    | .thrown => .ok (.fromMock (mockGet endpoint))
    | .response ok body =>
        if ok then .ok (.live body) else .ok (.fromMock (mockGet endpoint))

/-- Method `ApiClient.post` (`src/lib/api.ts` lines 57–81), same fallback
shape; `now` is `Date.now()` inside the mock. -/
def apiPost (useMock : Bool) (outcome : FetchOutcome) (now : Nat)
    (endpoint : List Char) (body : Option JVal) :
    Except ApiError (Payload MockPostResponse) :=
  if useMock then .ok (.fromMock (mockPost now endpoint body))
  else
    match outcome with
    | .thrown => .ok (.fromMock (mockPost now endpoint body))
    | .response ok rbody =>
        if ok then .ok (.live rbody) else .ok (.fromMock (mockPost now endpoint body))

/-- Method `ApiClient.delete` (`src/lib/api.ts` lines 83–106), same fallback
shape. -/
def apiDelete (useMock : Bool) (outcome : FetchOutcome) (endpoint : List Char) :
    Except ApiError (Payload MockPostResponse) :=
  if useMock then .ok (.fromMock (mockDelete endpoint))
  else
    match outcome with
    | .thrown => .ok (.fromMock (mockDelete endpoint))
    | .response ok rbody =>
        if ok then .ok (.live rbody) else .ok (.fromMock (mockDelete endpoint))

/-- C9: when the underlying fetch throws or answers with a non-ok
status, `get`, `post` and `delete` each return the mock client's
response for the endpoint — `.ok` with a mock payload, never an
error. -/
theorem api_client_never_rejects (outcome : FetchOutcome) (endpoint : List Char)
    (now : Nat) (body : Option JVal)
    (h : outcome = .thrown ∨ ∃ b, outcome = .response false b) :
    apiGet false outcome endpoint = .ok (.fromMock (mockGet endpoint)) ∧
    apiPost false outcome now endpoint body =
      .ok (.fromMock (mockPost now endpoint body)) ∧
    apiDelete false outcome endpoint = .ok (.fromMock (mockDelete endpoint)) := by
  rcases h with h | ⟨b, h⟩ <;> subst h <;>
    exact ⟨rfl, rfl, rfl⟩

/-- Witness for C9 at a thrown fetch against `/stats`. -/
theorem api_client_never_rejects_witness :
    apiGet false .thrown statsPath = .ok (.fromMock (mockGet statsPath)) ∧
    apiPost false .thrown 0 statsPath none =
      .ok (.fromMock (mockPost 0 statsPath none)) ∧
    apiDelete false .thrown statsPath = .ok (.fromMock (mockDelete statsPath)) :=
  api_client_never_rejects .thrown statsPath 0 none (.inl rfl)

/-! ### Auth context — `src/contexts/auth-context.tsx`

`signIn` (lines 124–148) calls `supabase.auth.signInWithPassword` and,
on success, returns the hard-coded `{ requiresTwoFactor: false }` (the
comment in the source: "For now, we'll skip 2FA check").
`verifyTwoFactor` (lines 192–195) only logs and resolves. -/

/-- The part of the Supabase user relevant here; `enableTwoFactor` is
the user's MFA enrollment flag (`user_metadata.enableTwoFactor`). -/
structure SupaUser where
  id : String
  email : String
  enableTwoFactor : Bool
deriving Repr, DecidableEq

/-- An authentication error from the Supabase backend. -/
inductive AuthErr where
  | supabaseError : String → AuthErr
deriving Repr, DecidableEq

/-- What `signIn` resolves with on success. -/
structure SignInResult where
  requiresTwoFactor : Bool
deriving Repr, DecidableEq

/-- Function `signIn`: rethrows a backend error; on any accepted credential pair
it returns `{ requiresTwoFactor: false }` without reading the user's
enrollment state. -/
def signIn (authResult : Except AuthErr SupaUser) : Except AuthErr SignInResult :=
  match authResult with
  | .error e => .error e
  | .ok _ => .ok { requiresTwoFactor := false }

/-- Function `verifyTwoFactor`: the body is a `console.log`; it resolves for
every `(tempToken, code)` input without performing any check. -/
def verifyTwoFactor (_tempToken _code : String) : Except AuthErr Unit :=
  .ok ()

/-- C8: for every user the backend accepts — enrolled in MFA or not —
`signIn` answers `requiresTwoFactor = false`, and `verifyTwoFactor`
succeeds on every input; the login flow never enforces a second
factor. -/
theorem signIn_never_requires_second_factor :
    (∀ u : SupaUser, signIn (.ok u) = .ok { requiresTwoFactor := false }) ∧
    (∀ tempToken code : String, verifyTwoFactor tempToken code = .ok ()) :=
  ⟨fun _ => rfl, fun _ _ => rfl⟩

/-! ### Session provider — `src/contexts/session-context.tsx`

`SESSION_TIMEOUT = 30 * 60 * 1000` and `WARNING_TIME = 5 * 60 * 1000`
are module constants; the interval callback compares
`Date.now() - lastActivity` against them, and both `updateActivity`
(run on every tracked DOM event) and `extendSession` reset
`lastActivity` to `Date.now()`.  No stored user preference appears in
the provider. -/

/-- The 30-minute timeout constant (milliseconds). -/
def SESSION_TIMEOUT : Int := 30 * 60 * 1000

/-- The 5-minute warning threshold (milliseconds). -/
def WARNING_TIME : Int := 5 * 60 * 1000

/-- The provider's state: last recorded activity instant plus the two
pieces of displayed state. -/
structure SessionState where
  lastActivity : Int
  sessionTimeLeft : Int
  isSessionWarning : Bool
deriving Repr, DecidableEq

/-- What one interval tick does: either the session expired (sign out
and redirect) or the provider stays active with updated display
state. -/
inductive TickResult where
  | signedOut : (redirect : String) → TickResult
  | active : SessionState → TickResult
deriving Repr, DecidableEq

/-- One tick of the 1-second interval (`src/contexts/session-context.tsx`
lines 43–59) at instant `now`. -/
def sessionTick (now : Int) (s : SessionState) : TickResult :=
  let timeSinceActivity := now - s.lastActivity
  let timeLeft := SESSION_TIMEOUT - timeSinceActivity
  if timeLeft ≤ 0 then
    .signedOut "/auth/login?reason=session-expired"
  else if timeLeft ≤ WARNING_TIME then
    .active { lastActivity := s.lastActivity, sessionTimeLeft := timeLeft,
              isSessionWarning := true }
  else
    .active { lastActivity := s.lastActivity, sessionTimeLeft := timeLeft,
              isSessionWarning := false }

/-- Function `updateActivity` (lines 30–34), run on every tracked activity
event. -/
def updateActivity (now : Int) : SessionState :=
  { lastActivity := now, sessionTimeLeft := SESSION_TIMEOUT,
    isSessionWarning := false }

/-- Function `extendSession` (lines 69–73); its body coincides with
`updateActivity`. -/
def extendSession (now : Int) : SessionState :=
  { lastActivity := now, sessionTimeLeft := SESSION_TIMEOUT,
    isSessionWarning := false }

/-- C10: the session expires — sign-out plus redirect to the login page
— exactly when 30 minutes (the fixed `SESSION_TIMEOUT` constant) have
elapsed since the last recorded activity, and every activity event or
`extendSession` call resets the remaining time to the full 30
minutes. -/
theorem session_expires_after_fixed_timeout :
    SESSION_TIMEOUT = 30 * 60 * 1000 ∧
    (∀ (now : Int) (s : SessionState),
      (∃ r, sessionTick now s = .signedOut r) ↔
        SESSION_TIMEOUT ≤ now - s.lastActivity) ∧
    (∀ now : Int, updateActivity now =
      { lastActivity := now, sessionTimeLeft := SESSION_TIMEOUT,
        isSessionWarning := false }) ∧
    (∀ now : Int, extendSession now = updateActivity now) := by
  refine ⟨rfl, ?_, fun _ => rfl, fun _ => rfl⟩
  intro now s
  unfold sessionTick
  by_cases h : SESSION_TIMEOUT - (now - s.lastActivity) ≤ 0
  · simp only [h, if_true]
    constructor
    · intro _
      omega
    · intro _
      exact ⟨"/auth/login?reason=session-expired", rfl⟩
  · simp only [h, if_false]
    constructor
    · intro hr
      by_cases h2 : SESSION_TIMEOUT - (now - s.lastActivity) ≤ WARNING_TIME
      · simp only [h2, if_true] at hr
        rcases hr with ⟨r, hr⟩
        cases hr
      · simp only [h2, if_false] at hr
        rcases hr with ⟨r, hr⟩
        cases hr
    · intro h3
      omega

/-! ### File Encryption Engine — backend contract (spec §4.2)

The encryption engine is server-side and absent from this repository;
only the spec describes it.  The model below follows §4.2: a
deterministic KDF turns password + salt into a key, an authenticated
cipher encrypts under key + nonce and emits an authentication tag, and
decryption re-derives the key and fails closed with `InvalidPassword`
when the tag does not verify.  The MAC is idealised as binding exactly
the key and the ciphertext (no forgeries, no collisions), which is the
property §4.2 assumes of the authentication tag. -/

/-- Modelled from the spec: the derived key of §4.2's KDF — a
"deterministic ... function turning a password + salt into a
cryptographic key"; modelled as the dependence itself, the pair of
password and salt. -/
def deriveKey (password : String) (salt : Nat) : String × Nat :=
  (password, salt)

/-- Modelled from the spec: the cipher's key stream for one encryption,
a byte determined by key and nonce. -/
def keyStream (k : String × Nat) (nonce : Nat) : Nat :=
  (k.1.length + k.2 + nonce) % 256

/-- Modelled from the spec: the cipher's forward transform — each
plaintext byte shifted by the key stream, modulo 256. -/
def cipherEnc (k : String × Nat) (nonce : Nat) (m : List Nat) : List Nat :=
  m.map (fun b => (b + keyStream k nonce) % 256)

/-- Modelled from the spec: the cipher's inverse transform. -/
def cipherDec (k : String × Nat) (nonce : Nat) (c : List Nat) : List Nat :=
  c.map (fun b => (b + (256 - keyStream k nonce)) % 256)

/-- Modelled from the spec: the authentication tag over key and
ciphertext (an idealised MAC: it verifies exactly for the key and
ciphertext it was produced over). -/
def macTag (k : String × Nat) (c : List Nat) : (String × Nat) × List Nat :=
  (k, c)

/-- Modelled from the spec: the stored result of one encryption — salt,
nonce and KDF parameters in the metadata, ciphertext, authentication
tag; never the password or the key. -/
structure EncryptedBlob where
  salt : Nat
  nonce : Nat
  ciphertext : List Nat
  tag : (String × Nat) × List Nat
deriving Repr, DecidableEq

/-- Decryption failure taxonomy of §4.2. -/
inductive DecryptError where
  | InvalidPassword : DecryptError
deriving Repr, DecidableEq

/-- Modelled from the spec: `encrypt(M, P)` — derive the key from the
password and a fresh salt, encrypt under key + nonce, store salt, nonce,
ciphertext and tag. -/
def encrypt (m : List Nat) (password : String) (salt nonce : Nat) : EncryptedBlob :=
  let k := deriveKey password salt
  let c := cipherEnc k nonce m
  { salt := salt, nonce := nonce, ciphertext := c, tag := macTag k c }

/-- Modelled from the spec: `decrypt(blob, P)` — re-derive the key from
the password and the stored salt, verify the authentication tag, and
only then return plaintext; fail with `InvalidPassword` otherwise. -/
def decrypt (blob : EncryptedBlob) (password : String) :
    Except DecryptError (List Nat) :=
  let k := deriveKey password blob.salt
  if blob.tag = macTag k blob.ciphertext then
    .ok (cipherDec k blob.nonce blob.ciphertext)
  else
    .error .InvalidPassword

/-- One byte round-trips through the cipher shift. -/
theorem cipher_byte_roundtrip (b s : Nat) (hb : b < 256) (hs : s < 256) :
    ((b + s) % 256 + (256 - s)) % 256 = b := by
  omega

/-- The cipher's inverse transform undoes its forward transform. -/
theorem cipherDec_cipherEnc (k : String × Nat) (nonce : Nat) (m : List Nat)
    (hm : ∀ b ∈ m, b < 256) : cipherDec k nonce (cipherEnc k nonce m) = m := by
  have hs : keyStream k nonce < 256 := by
    unfold keyStream
    omega
  unfold cipherDec cipherEnc
  rw [List.map_map]
  have hcong : List.map
      ((fun b => (b + (256 - keyStream k nonce)) % 256) ∘
        fun b => (b + keyStream k nonce) % 256) m = List.map id m :=
    List.map_congr_left (fun b hb => cipher_byte_roundtrip b _ (hm b hb) hs)
  rw [hcong, List.map_id]

/-- C2: decrypting with the password used to encrypt returns exactly the
original plaintext (bytes, i.e. values below 256). -/
theorem decrypt_encrypt_roundtrip (m : List Nat) (password : String)
    (salt nonce : Nat) (hm : ∀ b ∈ m, b < 256) :
    decrypt (encrypt m password salt nonce) password = .ok m := by
  unfold decrypt encrypt
  simp only [if_pos rfl]
  rw [cipherDec_cipherEnc _ _ _ hm]
  simp

/-- Witness for C2 at a concrete plaintext and password. -/
theorem decrypt_encrypt_roundtrip_witness :
    decrypt (encrypt [0, 42, 255] "correct-horse" 7 13) "correct-horse" =
      .ok [0, 42, 255] :=
  decrypt_encrypt_roundtrip [0, 42, 255] "correct-horse" 7 13 (by decide)

/-- C3: decrypting with any password other than the one used to encrypt
fails with `InvalidPassword` — no plaintext bytes are returned, garbage
or otherwise. -/
theorem decrypt_wrong_password_fails (m : List Nat) (p p' : String)
    (salt nonce : Nat) (hne : p ≠ p') :
    decrypt (encrypt m p salt nonce) p' = .error .InvalidPassword := by
  simp [decrypt, encrypt, macTag, deriveKey, hne]

/-- Witness for C3 at a concrete plaintext and two distinct passwords. -/
theorem decrypt_wrong_password_fails_witness :
    decrypt (encrypt [0, 42, 255] "correct-horse" 7 13) "wrong" =
      .error .InvalidPassword :=
  decrypt_wrong_password_fails [0, 42, 255] "correct-horse" "wrong" 7 13 (by decide)

/-! ### Access Control Evaluator — backend contract (spec §4.3)

The evaluator is server-side and absent from this repository; the model
below follows §4.3's contract word for word: four optional dimensions
checked in a fixed short-circuit order (expiration, time window,
location, password), an absent dimension is unrestricted, and a policy
with no dimensions always allows. -/

/-- The deny reasons of §4.3. -/
inductive DenyReason where
  | Expired : DenyReason
  | OutsideTimeWindow : DenyReason
  | LocationNotAllowed : DenyReason
  | InvalidPassword : DenyReason
deriving Repr, DecidableEq

/-- Decision type `Allow | Deny(reason)` of the evaluator. -/
inductive Decision where
  | Allow : Decision
  | Deny : DenyReason → Decision
deriving Repr, DecidableEq

/-- Modelled from the spec: an access policy — optional expiration
instant, optional daily time window `[startTime, endTime)` in minutes,
optional allowed-country set, optional password hash. -/
structure AccessPolicy where
  expirationDate : Option Int
  timeRestriction : Option (Nat × Nat)
  locationRestriction : Option (List String)
  passwordHash : Option Nat
deriving Repr, DecidableEq

/-- Modelled from the spec: the request context — current instant,
current time of day in minutes, resolved country, supplied password's
hash (if any), device identifier. -/
structure RequestContext where
  currentTime : Int
  minuteOfDay : Nat
  country : String
  suppliedPasswordHash : Option Nat
  deviceId : String
deriving Repr, DecidableEq

/-- Modelled from the spec: the time-window test with wrap-around —
inside `[startTime, endTime)` when the window does not wrap midnight,
and inside `[startTime, 24h) ∪ [0, endTime)` when it does. -/
def inTimeWindow (startTime endTime t : Nat) : Bool :=
  if startTime ≤ endTime then decide (startTime ≤ t ∧ t < endTime)
  else decide (startTime ≤ t ∨ t < endTime)

/-- Modelled from the spec: dimension 4 of §4.3, the password hash. -/
def evaluatePassword (policy : AccessPolicy) (ctx : RequestContext) : Decision :=
  match policy.passwordHash with
  | some stored =>
      if ctx.suppliedPasswordHash = some stored then .Allow
      else .Deny .InvalidPassword
  | none => .Allow

/-- Modelled from the spec: dimension 3 of §4.3, the allowed-country
set, falling through to the password dimension. -/
def evaluateLocation (policy : AccessPolicy) (ctx : RequestContext) : Decision :=
  match policy.locationRestriction with
  | some allowedCountries =>
      if ctx.country ∈ allowedCountries then evaluatePassword policy ctx
      else .Deny .LocationNotAllowed
  | none => evaluatePassword policy ctx

/-- Modelled from the spec: dimension 2 of §4.3, the daily time window,
falling through to the location dimension. -/
def evaluateTimeWindow (policy : AccessPolicy) (ctx : RequestContext) : Decision :=
  match policy.timeRestriction with
  | some (startTime, endTime) =>
      if inTimeWindow startTime endTime ctx.minuteOfDay then
        evaluateLocation policy ctx
      else .Deny .OutsideTimeWindow
  | none => evaluateLocation policy ctx

/-- Modelled from the spec: `evaluate(policy, requestContext)` of §4.3 —
short-circuit evaluation in the order expiration, time window, location,
password; every configured dimension passing (or being absent) yields
`Allow`. -/
def evaluate (policy : AccessPolicy) (ctx : RequestContext) : Decision :=
  match policy.expirationDate with
  | some exp =>
      if exp < ctx.currentTime then .Deny .Expired
      else evaluateTimeWindow policy ctx
  | none => evaluateTimeWindow policy ctx

/-- C5: a policy whose expiration instant lies in the past denies with
`Expired`, whatever the other policy dimensions and whatever the
request context. -/
theorem evaluate_expired_always_denies (policy : AccessPolicy)
    (ctx : RequestContext) (exp : Int)
    (hexp : policy.expirationDate = some exp) (hpast : exp < ctx.currentTime) :
    evaluate policy ctx = .Deny .Expired := by
  unfold evaluate
  rw [hexp]
  simp [hpast]

/-- Witness for C5: an expired policy whose every other dimension would
pass still denies with `Expired`. -/
theorem evaluate_expired_always_denies_witness :
    evaluate
      { expirationDate := some 1000, timeRestriction := some (540, 1020),
        locationRestriction := some ["US"], passwordHash := some 77 }
      { currentTime := 2000, minuteOfDay := 600, country := "US",
        suppliedPasswordHash := some 77, deviceId := "dev-1" } = .Deny .Expired :=
  evaluate_expired_always_denies _ _ 1000 rfl (by decide)

end SecureVault
